/-
Verification of the rez `uv` importer (src/rez/uv.py) against its
natural-language specification.

The development is a shallow embedding of the module: external collaborators
(the interpreter registry, `ResolvedContext`, the `re` module, the filesystem,
subprocess exit codes, the list of distributions read back by distlib) are
modelled as fields of an `Env` record of pure functions, and the module's own
control flow is translated function by function.  Exceptions are modelled by
`Except` / an `error` field; the contents of Python lists mutated in place are
modelled by recording which list object was selected and its final contents.
-/
import Mathlib

set_option maxHeartbeats 1000000

namespace RezUv

/-- Install modes of the importer, from the `InstallMode` enum in uv.py. -/
inductive InstallMode where
  | no_deps
  | min_deps
deriving DecidableEq

/-- One entry of the `pip_install_remaps` configuration list: a regex pattern
and the two substitution templates (source side and destination side). -/
structure RemapRule where
  record_path : String
  pip_install : String
  rez_install : String
deriving DecidableEq

/-- An installed foreign distribution as read back by distlib: its name,
version and the relative paths listed in its RECORD manifest. -/
structure Distribution where
  name : String
  version : String
  installed_files : List String
deriving DecidableEq

/-- A resolved rez context; only the resolved python version is relevant. -/
structure Context where
  py_ver : String
deriving DecidableEq

/-- Abstract interface of the `re` module: `search pattern s` decides whether
the pattern matches somewhere in `s`, and `sub pattern repl s` rewrites `s`.
The regex engine itself is an external collaborator. -/
structure Regex where
  search : String → String → Bool
  sub : String → String → String → String

/-- Payload of a raised `IOError` (errno, strerror, filename). -/
structure IOErrorInfo where
  errno : Nat
  strerror : String
  filename : String
deriving DecidableEq

/-- The exceptions the module can raise. `attributeError` models the
`AttributeError` triggered by calling a method on `None`. -/
inductive UvError where
  | runtimeError (msg : String)
  | buildError (msg : String)
  | attributeError (msg : String)
  | ioError (info : IOErrorInfo)
deriving DecidableEq

/-- The environment of one run: all external collaborators of uv.py.
`which_uv` is `shutil.which("uv")`; `latest_python` is the trimmed
major.minor version of the latest python rez package (none if there is no
python package at all); `resolve` is `ResolvedContext([pkg])`, returning
`none` when that raises `PackageFamilyNotFoundError`/`PackageNotFoundError`;
`trim2` is `Version(v).trim(2)`; `scratch` is the `mkdtemp` result;
`exit_code` gives each subprocess invocation's exit code; `distributions`
is what `DistributionPath([targetpath]).get_distributions()` yields. -/
structure Env where
  which_uv : Option String
  latest_python : Option String
  resolve : String → Option Context
  trim2 : String → String
  scratch : String
  pip_extra_args : List String
  pip_install_remaps : List RemapRule
  release_packages_path : String
  local_packages_path : String
  is_dir : String → Bool
  exit_code : List String → Nat
  path_exists : String → Bool
  distributions : List Distribution
  re : Regex

/-- Helper for `str.split` with a single-character separator: accumulates the
current segment (reversed) and cuts at each separator. -/
def splitCharAux (sep : Char) : List Char → List Char → List String
  | [], cur => [String.mk cur.reverse]
  | c :: rest, cur =>
    if c = sep then String.mk cur.reverse :: splitCharAux sep rest []
    else splitCharAux sep rest (c :: cur)

/-- Python `rel_src.split(os.sep)` for the posix separator. -/
def splitSlash (s : String) : List String :=
  splitCharAux '/' s.data []

/-- Python `str.startswith` over the underlying character list. -/
def strStartsWith (s pre : String) : Bool :=
  pre.data.isPrefixOf s.data

/-- Python `str.endswith` over the underlying character list. -/
def strEndsWith (s suf : String) : Bool :=
  suf.data.isSuffixOf s.data

/-- Scanner of Python `str.replace(pat, repl)` for a non-empty pattern: left-to-right,
non-overlapping.  `fuel` is an upper bound on the scan length; the string
length suffices. -/
def replaceAux (pat repl : List Char) : Nat → List Char → List Char
  | _, [] => []
  | 0, l => l
  | Nat.succ fuel, c :: rest =>
    if pat.isPrefixOf (c :: rest) then
      repl ++ replaceAux pat repl fuel ((c :: rest).drop pat.length)
    else c :: replaceAux pat repl fuel rest

/-- Python `str.replace` (non-empty pattern). -/
def strReplace (s pat repl : String) : String :=
  String.mk (replaceAux pat.data repl.data s.data.length s.data)

/-- Python `os.path.join` for the two-argument posix case used in uv.py. -/
def osJoin (a b : String) : String :=
  if strStartsWith b "/" then b
  else if a = "" then b
  else if strEndsWith a "/" then a ++ b
  else (a ++ "/") ++ b

/-- Python `os.path.normpath` (posix): drops empty and `.` components and resolves
non-leading `..` components, following posixpath.normpath. -/
def normpath (path : String) : String :=
  if path = "" then "."
  else
    let initialSlashes : Nat :=
      if strStartsWith path "/" then
        if strStartsWith path "//" ∧ ¬ strStartsWith path "///" then 2 else 1
      else 0
    let comps := splitSlash path
    let newComps := comps.foldl
      (fun acc comp =>
        if comp = "" ∨ comp = "." then acc
        else if comp ≠ ".." ∨ (initialSlashes = 0 ∧ acc = []) ∨ acc.getLast? = some ".." then
          acc ++ [comp]
        else if acc ≠ [] then acc.dropLast
        else acc)
      []
    let joined := String.join (List.replicate initialSlashes "/") ++ "/".intercalate newComps
    if joined = "" then "." else joined

/-- The dist_record string of `_get_distribution_files_mapping`:
`"{dist.name}-{dist.version}.dist-info{os.sep}RECORD"`. -/
def distRecord (distribution : Distribution) : String :=
  distribution.name ++ ("-" ++ (distribution.version ++ ".dist-info/RECORD"))

/-- The tokenised path of the diagnostic: `os.pardir` replaced by a
`pardir` placeholder and `os.sep` by a `sep` placeholder. -/
def tokenise (rel_src : String) : String :=
  strReplace (strReplace rel_src ".." "\x7bpardir\x7d") "/" "\x7bsep\x7d"

/-- Literal text of the diagnostic before the `{0}` (dist_record) slot. -/
def ttm1 : String := "Unknown source file in "

/-- Literal text between the `{0}` slot and the first `{1}` (rel_src) slot. -/
def ttm2 : String := "! \x27"

/-- Literal text between the first and the second `{1}` slot. -/
def ttm3 : String :=
  "\x27\n\nTo resolve, try:\n\n1. Manually install the uv pip package using \x27uv pip install --target\x27\n   to a temporary location.\n2. See where \x27"

/-- Literal text between the second `{1}` slot and the `{2}` (tokenised path)
slot. -/
def ttm4 : String :=
  "\x27\n   actually got installed to by uv pip, RELATIVE to --target location\n3. Create a new rule to \x27pip_install_remaps\x27 configuration like:\n\n    \x7b\n        \"record_path\": r\""

/-- Literal text after the `{2}` slot. -/
def ttm5 : String :=
  "\",\n        \"pip_install\": r\"<RELATIVE path uv pip installed to in 2.>\",\n        \"rez_install\": r\"<DESTINATION sub-path in rez package>\",\n    \x7d\n\n4. Try rez-pip install again.\n\nIf path remapping is not enough, consider submitting a new issue\nvia https://github.com/AcademySoftwareFoundation/rez/issues/new\n"

/-- The `try_this_message` diagnostic emitted before the addressing-required
error, after `.format(dist_record, rel_src, tokenised_path)`, `dedent` and
`lstrip` have been applied. -/
def try_this_message (dist_record rel_src tokenised_path : String) : String :=
  ttm1 ++ (dist_record ++ (ttm2 ++ (rel_src ++ (ttm3 ++ (rel_src ++ (ttm4 ++ (tokenised_path ++ ttm5)))))))

/-- The strerror of the raised `IOError(89, ..., rel_src)`. -/
def ioErrMsg (distribution : Distribution) : String :=
  "Don\x27t know what to do with relative path in " ++
    (distRecord distribution ++ ", see above error message for")

/-- The inner `get_mapping` closure of `_get_distribution_files_mapping`.
On the unmapped parent-escaping path it returns the printed diagnostic
together with the raised `IOError`. -/
def get_mapping (env : Env) (distribution : Distribution) (rel_src : String) :
    Except (String × IOErrorInfo) (String × String) :=
  let topdir := (splitSlash rel_src).headD ""
  if topdir = "bin" then Except.ok (rel_src, rel_src)
  else if strEndsWith topdir ".dist-info" then Except.ok (rel_src, osJoin "python" rel_src)
  else if topdir = ".." then
    match env.pip_install_remaps.find? (fun remap => env.re.search remap.record_path rel_src) with
    | some remap =>
        Except.ok (env.re.sub remap.record_path remap.pip_install rel_src,
                   env.re.sub remap.record_path remap.rez_install rel_src)
    | none =>
        Except.error (try_this_message (distRecord distribution) rel_src (tokenise rel_src),
                      ⟨89, ioErrMsg distribution, rel_src⟩)
  else Except.ok (rel_src, osJoin "python" rel_src)

/-- The warning printed for a mapped file whose source path does not exist. -/
def warnMsg (src_filepath rel_src_orig : String) : String :=
  "Skipping non-existent source file: " ++
    (src_filepath ++ (" (" ++ (rel_src_orig ++ ")")))

/-- Assignment into the result dict: a later write to an existing key
overwrites its value in place, a new key is appended. -/
def dictInsert (d : List (String × String)) (k v : String) : List (String × String) :=
  if d.any (fun p => p.1 == k) then
    d.map (fun p => if p.1 == k then (k, v) else p)
  else d ++ [(k, v)]

/-- The loop of `_get_distribution_files_mapping`: accumulates warnings and
the source-to-destination dict, skipping files whose source does not exist
and propagating the mapping error. -/
def mappingLoop (env : Env) (distribution : Distribution) (targetdir : String) :
    List String → List String → List (String × String) →
    Except (String × IOErrorInfo) (List String × List (String × String))
  | [], wacc, racc => Except.ok (wacc, racc)
  | f :: rest, wacc, racc =>
    match get_mapping env distribution (normpath f) with
    | Except.error e => Except.error e
    | Except.ok (rel_src, rel_dest) =>
      if env.path_exists (osJoin targetdir rel_src) then
        mappingLoop env distribution targetdir rest wacc (dictInsert racc rel_src rel_dest)
      else
        mappingLoop env distribution targetdir rest
          (wacc ++ [warnMsg (osJoin targetdir rel_src) (normpath f)]) racc

/-- Model of `_get_distribution_files_mapping`: returns the printed warnings and the
resulting mapping, or the diagnostic plus `IOError` of an unmapped path. -/
def _get_distribution_files_mapping (env : Env) (distribution : Distribution)
    (targetdir : String) :
    Except (String × IOErrorInfo) (List String × List (String × String)) :=
  mappingLoop env distribution targetdir distribution.installed_files [] []

/-- Model of `find_uv`: locate the installer executable or raise `RuntimeError`. -/
def find_uv (env : Env) : Except UvError String :=
  match env.which_uv with
  | some uv_exe => Except.ok uv_exe
  | none => Except.error (UvError.runtimeError "Cant find uv.exe in PATH")

/-- Model of `find_python_from_context`: resolve a `python-<major.minor>` context.
With no `python_version`, the latest python package supplies the version, and
its absence raises `BuildError`.  A failing `ResolvedContext` (the two caught
not-found exceptions) yields `ok none`, exactly as the source returns `None`. -/
def find_python_from_context (env : Env) (python_version : Option String) :
    Except UvError (Option Context) :=
  match python_version with
  | some v => Except.ok (env.resolve ("python-" ++ env.trim2 v))
  | none =>
    match env.latest_python with
    | some mm => Except.ok (env.resolve ("python-" ++ mm))
    | none => Except.error (UvError.buildError "Found no python rez package.")

/-- Which list object `_extra_args = extra_args or config.pip_extra_args or []`
selected: the caller's list, the shared config list, or a fresh empty list.
`notReached` marks runs that fail before that line. -/
inductive ArgsSource where
  | caller
  | cfg
  | fresh
  | notReached
deriving DecidableEq

/-- Python truthiness of `extra_args or config.pip_extra_args or []`:
the first non-empty operand is used, else the trailing fresh empty list. -/
def selectArgs (extra_args : Option (List String)) (cfgArgs : List String) :
    ArgsSource × List String :=
  match extra_args with
  | some l =>
    if l = [] then
      if cfgArgs = [] then (ArgsSource.fresh, []) else (ArgsSource.cfg, cfgArgs)
    else (ArgsSource.caller, l)
  | none =>
    if cfgArgs = [] then (ArgsSource.fresh, []) else (ArgsSource.cfg, cfgArgs)

/-- Python `list.remove(x)`: drop the first occurrence, or `none` when the
`ValueError` branch is taken. -/
def removeFirst (l : List String) (x : String) : Option (List String) :=
  if x ∈ l then some (l.erase x) else none

/-- Rendering of the `python_version` argument inside the f-strings; a missing
version renders as Python prints `None`. -/
def optVerStr : Option String → String
  | some v => v
  | none => "None"

/-- Model of `_option_present(opts, *args)`. -/
def _option_present (opts : List String) (args : List String) : Bool :=
  opts.any (fun opt => args.any (fun arg => opt == arg || strStartsWith opt (arg ++ "=")))

/-- Python `shlex.quote`, used only to format the `BuildError` message of `_cmd`. -/
def shlexQuote (s : String) : String :=
  if s = "" then "\x27\x27"
  else if s.data.all (fun c => c.isAlphanum || ("_@%+=:,./-".data.contains c)) then s
  else "\x27" ++ ((strReplace s "\x27" "\x27\"\x27\"\x27") ++ "\x27")

/-- The shell-quoted, space-joined command line of `_cmd`. -/
def cmdStr (command : List String) : String :=
  " ".intercalate (command.map shlexQuote)

/-- Model of `_cmd`: run a blocking subprocess; a nonzero exit code raises `BuildError`
carrying the quoted command line. -/
def _cmd (env : Env) (command : List String) : Option UvError :=
  if env.exit_code command = 0 then none
  else some (UvError.buildError ("Failed to download source with uv: " ++ cmdStr command))

/-- Outcome of the directory-source compile/sync phase: the subprocess
invocations it ran, the raised error if any, the `--override` argument it
contributes to the install command, and whether the sync step was run. -/
structure DirResult where
  cmds : List (List String)
  err : Option UvError
  overrideArgs : List String
  syncRan : Bool
deriving DecidableEq

/-- The `os.path.isdir(source_name)` branch of `uv_install_package`: build and
run `uv pip compile`, then `uv pip sync` unless `no_deps` was extracted from
the extra arguments, and hand the lock file to the install step. -/
def dirPhase (env : Env) (uv_exe pyArg targetpath : String) (mode : InstallMode)
    (no_deps : Bool) (eargs : List String) : DirResult :=
  let compile0 := [uv_exe, "pip", "compile", "pyproject.toml",
      "-o", targetpath ++ "/uv.lock", "--upgrade",
      "--prerelease=explicit", "--emit-index-url",
      "--index-strategy=unsafe-best-match", "--system", pyArg,
      "--python-preference=system", "--no-python-downloads"]
  let sync0 := [uv_exe, "pip", "sync",
      "--index-strategy=unsafe-best-match", "--system", pyArg,
      "--python-preference=system", "--no-python-downloads",
      "--compile", "--target=" ++ targetpath]
  let compile1 :=
    if mode = InstallMode.no_deps ∧ "--no-deps" ∉ eargs then compile0 ++ ["--no-deps"]
    else compile0
  let compile_cmd := compile1 ++ eargs
  let sync1 := sync0 ++ eargs
  match _cmd env compile_cmd with
  | some e => { cmds := [compile_cmd], err := some e, overrideArgs := [], syncRan := false }
  | none =>
    let sync_cmd := sync1 ++ [targetpath ++ "/uv.lock"]
    if no_deps then
      { cmds := [compile_cmd], err := none,
        overrideArgs := ["--override=" ++ (targetpath ++ "/uv.lock")], syncRan := false }
    else
      match _cmd env sync_cmd with
      | some e =>
          { cmds := [compile_cmd, sync_cmd], err := some e, overrideArgs := [], syncRan := true }
      | none =>
          { cmds := [compile_cmd, sync_cmd], err := none,
            overrideArgs := ["--override=" ++ (targetpath ++ "/uv.lock")], syncRan := true }

/-- Assembly of the final `uv pip install` command line: the fixed flags, the
lock-file override from the directory phase, the mode-driven `--no-deps`
(suppressed when the flag is still among the extra arguments), the default
`--target` (suppressed by a caller-supplied `-t`/`--target`), then the extra
arguments verbatim and the source. -/
def mkInstallCmd (uv_exe pyArg targetpath : String) (mode : InstallMode)
    (overrideArgs : List String) (eargs : List String) (source_name : String) :
    List String :=
  let install0 := [uv_exe, "pip", "install",
      "--prerelease=explicit", "--index-strategy=unsafe-best-match",
      "--system", pyArg, "--python-preference=system",
      "--no-python-downloads", "--compile"]
  let install1 := install0 ++ overrideArgs
  let install2 :=
    if mode = InstallMode.no_deps ∧ "--no-deps" ∉ eargs then install1 ++ ["--no-deps"]
    else install1
  let install3 :=
    if _option_present eargs ["-t", "--target"] then install2
    else install2 ++ ["--target=" ++ targetpath]
  install3 ++ (eargs ++ [source_name])

/-- Observable outcome of one `uv_install_package` run: the subprocess
invocations in order, the install command if it was run, whether the compile
and sync steps ran, which extra-argument list object was selected and its
final contents (the in-place mutation), whether `shutil.rmtree(targetpath)`
executed, and the propagated exception if any. -/
structure RunResult where
  commands : List (List String)
  installCmd : Option (List String)
  compileRan : Bool
  syncRan : Bool
  argsSource : ArgsSource
  extraArgsAfter : List String
  rmtreeRan : Bool
  error : Option UvError
deriving DecidableEq

/-- Outcome of a run that raises before reaching the extra-argument handling:
no subprocess ran, nothing was mutated, the scratch directory logic was
never reached. -/
def earlyFail (e : UvError) : RunResult :=
  { commands := [], installCmd := none, compileRan := false, syncRan := false,
    argsSource := ArgsSource.notReached, extraArgsAfter := [],
    rmtreeRan := false, error := some e }

/-- The `AttributeError` message raised by `context.get_resolved_package`
when `find_python_from_context` returned `None`. -/
def attrMsg : String :=
  "\x27NoneType\x27 object has no attribute \x27get_resolved_package\x27"

/-- The per-distribution loop of `uv_install_package`, restricted to the part
that can raise: the file-mapping translation.  The metadata translator and
the package builder are external collaborators modelled as not raising. -/
def processDistributions (env : Env) (targetpath : String) :
    List Distribution → Option UvError
  | [] => none
  | d :: rest =>
    match _get_distribution_files_mapping env d targetpath with
    | Except.error (_, info) => some (UvError.ioError info)
    | Except.ok _ => processDistributions env targetpath rest

/-- Body of `uv_install_package` after the interpreter context was resolved:
extra-argument selection and `--no-deps` extraction, the optional
compile/sync phase for a directory source, the install step, the
distribution loop, and the final `shutil.rmtree(targetpath)` which executes
exactly when no earlier statement raised. -/
def uv_install_with (env : Env) (uv_exe : String) (context : Context)
    (source_name : String) (python_version : Option String) (mode : InstallMode)
    (release : Bool) (prefix_arg : Option String) (extra_args : Option (List String)) :
    RunResult :=
  let sel := selectArgs extra_args env.pip_extra_args
  let rm := removeFirst sel.2 "--no-deps"
  let no_deps := rm.isSome
  let eargs := rm.getD sel.2
  let targetpath := env.scratch
  let pyArg := "--python-version=" ++ optVerStr python_version
  let dir := env.is_dir source_name
  let dres :=
    if dir then dirPhase env uv_exe pyArg targetpath mode no_deps eargs
    else { cmds := [], err := none, overrideArgs := [], syncRan := false }
  match dres.err with
  | some e =>
      { commands := dres.cmds, installCmd := none, compileRan := dir,
        syncRan := dres.syncRan, argsSource := sel.1, extraArgsAfter := eargs,
        rmtreeRan := false, error := some e }
  | none =>
    let install_cmd := mkInstallCmd uv_exe pyArg targetpath mode dres.overrideArgs eargs source_name
    let cmds := dres.cmds ++ [install_cmd]
    match _cmd env install_cmd with
    | some e =>
        { commands := cmds, installCmd := some install_cmd, compileRan := dir,
          syncRan := dres.syncRan, argsSource := sel.1, extraArgsAfter := eargs,
          rmtreeRan := false, error := some e }
    | none =>
      match processDistributions env targetpath env.distributions with
      | some e =>
          { commands := cmds, installCmd := some install_cmd, compileRan := dir,
            syncRan := dres.syncRan, argsSource := sel.1, extraArgsAfter := eargs,
            rmtreeRan := false, error := some e }
      | none =>
          { commands := cmds, installCmd := some install_cmd, compileRan := dir,
            syncRan := dres.syncRan, argsSource := sel.1, extraArgsAfter := eargs,
            rmtreeRan := true, error := none }

/-- Model of `uv_install_package`: locate the installer, resolve the interpreter
context (a `None` context makes the subsequent attribute access raise), then
run the install pipeline. -/
def uv_install_package (env : Env) (source_name : String)
    (python_version : Option String) (mode : InstallMode) (release : Bool)
    (prefix_arg : Option String) (extra_args : Option (List String)) : RunResult :=
  match find_uv env with
  | Except.error e => earlyFail e
  | Except.ok uv_exe =>
    match find_python_from_context env python_version with
    | Except.error e => earlyFail e
    | Except.ok none => earlyFail (UvError.attributeError attrMsg)
    | Except.ok (some context) =>
        uv_install_with env uv_exe context source_name python_version mode release
          prefix_arg extra_args

/-- The author-line fragment of the package assembly (uv.py lines 339-345):
the `author` metadata key, if declared, becomes the single authors entry,
with `author_email` appended after a space when it is also declared. -/
def pkgAuthors (distribution_metadata : List (String × String)) : Option (List String) :=
  match distribution_metadata.lookup "author" with
  | none => none
  | some author =>
    match distribution_metadata.lookup "author_email" with
    | none => some [author]
    | some email => some [(author ++ " ") ++ email]

/-- A Boolean probe for the claims distinguishing `BuildError` from the other
exception kinds. -/
def errIsBuild : Option UvError → Bool
  | some (UvError.buildError _) => true
  | _ => false

/-- A baseline environment in which every collaborator succeeds: uv is on the
search path, `python-3.11` resolves, every subprocess exits 0, every file
exists, and the installer produced no distributions. -/
def envOk : Env :=
  { which_uv := some "/usr/bin/uv"
    latest_python := some "3.11"
    resolve := fun _ => some ⟨"3.11.5"⟩
    trim2 := fun v => v
    scratch := "/tmp/uv-3.11.5-rez"
    pip_extra_args := []
    pip_install_remaps := []
    release_packages_path := "/packages/release"
    local_packages_path := "/packages/local"
    is_dir := fun _ => false
    exit_code := fun _ => 0
    path_exists := fun _ => true
    distributions := []
    re := { search := fun p s => p == s, sub := fun p r s => if s == p then r else s } }

/-- A distribution with no installed files (placeholder for claims about the
pure mapping function). -/
def distW : Distribution := { name := "pkg", version := "1.0", installed_files := [] }

/-- A distribution listing a single parent-escaping file. -/
def distC1 : Distribution :=
  { name := "foo", version := "1.0", installed_files := ["../escaped.h"] }

/-- Environment whose single distribution lists a parent-escaping file and in
which no remap rule is configured: its mapping translation raises. -/
def envC1 : Env :=
  { envOk with distributions := [distC1] }

/-- Environment in which resolving any context raises the caught not-found
exceptions, so `find_python_from_context` returns `None`. -/
def envC4 : Env :=
  { envOk with resolve := fun _ => none }

/-- A remap rule whose pattern (under the equality-test regex engine of
`envOk`) matches the path `../lib/x.h`. -/
def ruleW2 : RemapRule :=
  { record_path := "../lib/x.h", pip_install := "mapped/x.h", rez_install := "python/mapped/x.h" }

/-- Environment with one configured remap rule whose pattern (under the
equality-test regex engine of `envOk`) matches the path `../lib/x.h`. -/
def envW2 : Env :=
  { envOk with pip_install_remaps := [ruleW2] }

/-- Environment in which exactly one concrete file is missing on disk. -/
def envW9 : Env :=
  { envOk with path_exists := fun s => !(s == "/t/pkg/missing.py") }

/-- Distribution listing one file that exists under `envW9` and one that does
not. -/
def distW9 : Distribution :=
  { name := "pkg", version := "1.0", installed_files := ["pkg/a.py", "pkg/missing.py"] }

/-- Environment whose shared configuration list of extra installer arguments
contains the no-dependencies flag. -/
def envW10 : Env :=
  { envOk with pip_extra_args := ["--no-deps", "-v"] }

theorem str_length_zero (s : String) (h : s.length = 0) : s = "" := by
  cases s with
  | mk data =>
    cases data with
    | nil => rfl
    | cons c cs => simp [String.length] at h

theorem append_ne_nodeps (p s : String) (hp : 9 < p.length) : p ++ s ≠ "--no-deps" := by
  intro h
  have hl := congrArg String.length h
  rw [String.length_append] at hl
  have h9 : ("--no-deps" : String).length = 9 := rfl
  omega

theorem target_append_ne (s : String) : ("--target=" ++ s) ≠ "--no-deps" := by
  intro h
  have hl := congrArg String.length h
  rw [String.length_append] at hl
  have h1 : ("--target=" : String).length = 9 := rfl
  have h2 : ("--no-deps" : String).length = 9 := rfl
  have hs : s.length = 0 := by omega
  rw [str_length_zero s hs] at h
  exact absurd h (by decide)

theorem osJoin_python (s : String) (h : strStartsWith s "/" = false) :
    osJoin "python" s = "python/" ++ s := by
  have h2 : strEndsWith "python" "/" = false := by decide
  have h3 : ¬ ("python" : String) = "" := by decide
  have h4 : ("python" ++ "/" : String) = "python/" := rfl
  unfold osJoin
  rw [h, h2]
  simp [h3, h4]

/-- The diagnostic names both the offending path and the distribution's
manifest file. -/
theorem try_this_mentions (dr rs tok : String) :
    (∃ a b, try_this_message dr rs tok = a ++ (rs ++ b)) ∧
    (∃ a b, try_this_message dr rs tok = a ++ (dr ++ b)) := by
  constructor
  · refine ⟨ttm1 ++ (dr ++ ttm2), ttm3 ++ (rs ++ (ttm4 ++ (tok ++ ttm5))), ?_⟩
    simp only [try_this_message, String.append_assoc]
  · exact ⟨ttm1, ttm2 ++ (rs ++ (ttm3 ++ (rs ++ (ttm4 ++ (tok ++ ttm5))))), rfl⟩

theorem dictInsert_mem_or (d : List (String × String)) (k v : String) :
    ∀ p ∈ dictInsert d k v, p ∈ d ∨ p = (k, v) := by
  intro p hp
  unfold dictInsert at hp
  by_cases hc : d.any (fun q => q.1 == k) = true
  · rw [if_pos hc] at hp
    rcases List.mem_map.mp hp with ⟨q, hq, he⟩
    by_cases hk : (q.1 == k) = true
    · right
      rw [if_pos hk] at he
      exact he.symm
    · left
      rw [if_neg hk] at he
      rwa [← he]
  · rw [if_neg hc] at hp
    rcases List.mem_append.mp hp with h | h
    · exact Or.inl h
    · right
      simpa using h

theorem dictInsert_self (d : List (String × String)) (k v : String) :
    (k, v) ∈ dictInsert d k v := by
  unfold dictInsert
  by_cases hc : d.any (fun q => q.1 == k) = true
  · rw [if_pos hc]
    rcases List.any_eq_true.mp hc with ⟨q, hq, hqk⟩
    refine List.mem_map.mpr ⟨q, hq, ?_⟩
    simp [hqk]
  · rw [if_neg hc]
    exact List.mem_append_right _ (List.mem_singleton.mpr rfl)

theorem dictInsert_key_mem (d : List (String × String)) (k v k' : String)
    (h : ∃ w, (k', w) ∈ d) : ∃ w, (k', w) ∈ dictInsert d k v := by
  by_cases hk : k' = k
  · subst hk
    exact ⟨v, dictInsert_self d k' v⟩
  · rcases h with ⟨w, hw⟩
    refine ⟨w, ?_⟩
    unfold dictInsert
    by_cases hc : d.any (fun q => q.1 == k) = true
    · rw [if_pos hc]
      refine List.mem_map.mpr ⟨(k', w), hw, ?_⟩
      simp [hk]
    · rw [if_neg hc]
      exact List.mem_append_left _ hw

/-- Invariants of the `_get_distribution_files_mapping` loop: when every file
translates, the loop succeeds; entries of the result have existing sources
(given the accumulator does); keys persist; warnings persist; and every
processed file either lands in the result (source exists) or leaves its
warning (source missing). -/
theorem mappingLoop_spec (env : Env) (dist : Distribution) (targetdir : String) :
    ∀ (files wacc : List String) (racc : List (String × String)),
      (∀ f ∈ files, ∃ v, get_mapping env dist (normpath f) = Except.ok v) →
      ∃ ws res, mappingLoop env dist targetdir files wacc racc = Except.ok (ws, res) ∧
        ((∀ p ∈ racc, env.path_exists (osJoin targetdir p.1) = true) →
          ∀ p ∈ res, env.path_exists (osJoin targetdir p.1) = true) ∧
        (∀ k, (∃ v, (k, v) ∈ racc) → ∃ v, (k, v) ∈ res) ∧
        (∀ w ∈ wacc, w ∈ ws) ∧
        (∀ f ∈ files, ∀ s d, get_mapping env dist (normpath f) = Except.ok (s, d) →
          ((env.path_exists (osJoin targetdir s) = true → ∃ v, (s, v) ∈ res) ∧
           (env.path_exists (osJoin targetdir s) = false →
             warnMsg (osJoin targetdir s) (normpath f) ∈ ws))) := by
  intro files
  induction files with
  | nil =>
    intro wacc racc _
    exact ⟨wacc, racc, rfl, fun hP => hP, fun _ h => h, fun _ h => h, by simp⟩
  | cons f rest ih =>
    intro wacc racc h
    obtain ⟨⟨s, d⟩, hm⟩ := h f (List.mem_cons_self f rest)
    have hrest : ∀ g ∈ rest, ∃ v, get_mapping env dist (normpath g) = Except.ok v :=
      fun g hg => h g (List.mem_cons_of_mem f hg)
    cases hex : env.path_exists (osJoin targetdir s) with
    | true =>
      obtain ⟨ws, res, heq, hP, hkey, hw, hfiles⟩ := ih wacc (dictInsert racc s d) hrest
      refine ⟨ws, res, ?_, ?_, ?_, hw, ?_⟩
      · simp only [mappingLoop, hm]
        rw [if_pos hex]
        exact heq
      · intro hracc
        apply hP
        intro p hp
        rcases dictInsert_mem_or racc s d p hp with hin | hpe
        · exact hracc p hin
        · rw [hpe]
          exact hex
      · intro k hk
        exact hkey k (dictInsert_key_mem racc s d k hk)
      · intro g hg s' d' hm'
        rcases List.mem_cons.mp hg with rfl | hgr
        · have hsd : (s, d) = (s', d') := Except.ok.inj (hm.symm.trans hm')
          cases hsd
          constructor
          · intro _
            exact hkey s ⟨d, dictInsert_self racc s d⟩
          · intro hfalse
            simp [hex] at hfalse
        · exact hfiles g hgr s' d' hm'
    | false =>
      obtain ⟨ws, res, heq, hP, hkey, hw, hfiles⟩ :=
        ih (wacc ++ [warnMsg (osJoin targetdir s) (normpath f)]) racc hrest
      refine ⟨ws, res, ?_, hP, hkey, ?_, ?_⟩
      · simp only [mappingLoop, hm]
        rw [if_neg (by simp [hex])]
        exact heq
      · intro w hw'
        exact hw w (List.mem_append_left _ hw')
      · intro g hg s' d' hm'
        rcases List.mem_cons.mp hg with rfl | hgr
        · have hsd : (s, d) = (s', d') := Except.ok.inj (hm.symm.trans hm')
          cases hsd
          constructor
          · intro htrue
            simp [hex] at htrue
          · intro _
            exact hw _ (List.mem_append_right _ (List.mem_singleton.mpr rfl))
        · exact hfiles g hgr s' d' hm'

/-- When `no_deps` was extracted from the extra arguments, the directory
phase never runs the sync step. -/
theorem dirPhase_syncRan (env : Env) (uv pyArg tp : String) (mode : InstallMode)
    (eargs : List String) :
    (dirPhase env uv pyArg tp mode true eargs).syncRan = false := by
  simp only [dirPhase]
  repeat' split
  all_goals first | rfl | simp_all

/-- The directory phase contributes at most a lock-file `--override` argument
to the install command, never the no-dependencies flag. -/
theorem dirPhase_override (env : Env) (uv pyArg tp : String) (mode : InstallMode)
    (nd : Bool) (eargs : List String) :
    "--no-deps" ∉ (dirPhase env uv pyArg tp mode nd eargs).overrideArgs := by
  have hs : "--no-deps" ∉ ["--override=" ++ (tp ++ "/uv.lock")] := by
    simp only [List.mem_singleton]
    exact Ne.symm (append_ne_nodeps "--override=" _ (by decide))
  simp only [dirPhase]
  repeat' split
  all_goals first | exact List.not_mem_nil _ | exact hs | simp_all

/-- Either branch of the directory-phase selection contributes no
no-dependencies flag as an override argument. -/
theorem dres_override_if (env : Env) (uv pyArg tp : String) (mode : InstallMode) (nd : Bool)
    (eargs : List String) (b : Bool) :
    "--no-deps" ∉ (if b = true then dirPhase env uv pyArg tp mode nd eargs
      else { cmds := [], err := none, overrideArgs := [], syncRan := false } : DirResult).overrideArgs := by
  split
  · exact dirPhase_override env uv pyArg tp mode nd eargs
  · exact List.not_mem_nil _

/-- After the context is resolved, `uv_install_package` is the install
pipeline. -/
theorem uv_install_package_reduce (env : Env) (source : String) (pv : Option String)
    (mode : InstallMode) (release : Bool) (pfx : Option String) (ea : Option (List String))
    (uv : String) (ctx : Context)
    (hu : env.which_uv = some uv)
    (hctx : find_python_from_context env pv = Except.ok (some ctx)) :
    uv_install_package env source pv mode release pfx ea =
      uv_install_with env uv ctx source pv mode release pfx ea := by
  unfold uv_install_package find_uv
  rw [hu, hctx]

/-- The pipeline removes the scratch directory exactly on runs that raise
nothing. -/
theorem uv_install_with_rmtree (env : Env) (uv : String) (ctx : Context) (source : String)
    (pv : Option String) (mode : InstallMode) (release : Bool) (pfx : Option String)
    (ea : Option (List String)) :
    (uv_install_with env uv ctx source pv mode release pfx ea).rmtreeRan = true ↔
    (uv_install_with env uv ctx source pv mode release pfx ea).error = none := by
  simp only [uv_install_with]
  repeat' split
  all_goals simp

/-- The pipeline's selected argument list and its final contents, at every
exit point. -/
theorem uv_install_with_args (env : Env) (uv : String) (ctx : Context) (source : String)
    (pv : Option String) (mode : InstallMode) (release : Bool) (pfx : Option String)
    (ea : Option (List String)) :
    (uv_install_with env uv ctx source pv mode release pfx ea).argsSource =
      (selectArgs ea env.pip_extra_args).1 ∧
    (uv_install_with env uv ctx source pv mode release pfx ea).extraArgsAfter =
      (removeFirst (selectArgs ea env.pip_extra_args).2 "--no-deps").getD
        (selectArgs ea env.pip_extra_args).2 := by
  simp only [uv_install_with]
  repeat' split
  all_goals exact ⟨rfl, rfl⟩

/-- When the no-dependencies flag was extracted from the selected argument
list, the sync step never runs. -/
theorem uv_install_with_syncRan (env : Env) (uv : String) (ctx : Context) (source : String)
    (pv : Option String) (mode : InstallMode) (release : Bool) (pfx : Option String)
    (ea : Option (List String))
    (hnd : (removeFirst (selectArgs ea env.pip_extra_args).2 "--no-deps").isSome = true) :
    (uv_install_with env uv ctx source pv mode release pfx ea).syncRan = false := by
  simp only [uv_install_with, hnd]
  repeat' split
  all_goals first
    | rfl
    | exact dirPhase_syncRan env uv _ env.scratch mode _
    | simp_all

/-- Whenever the pipeline ran the install step, its command line is the
assembled install command, over override arguments free of the
no-dependencies flag. -/
theorem uv_install_with_installCmd (env : Env) (uv : String) (ctx : Context) (source : String)
    (pv : Option String) (mode : InstallMode) (release : Bool) (pfx : Option String)
    (ea : Option (List String)) (cmd : List String)
    (h : (uv_install_with env uv ctx source pv mode release pfx ea).installCmd = some cmd) :
    ∃ ov, "--no-deps" ∉ ov ∧
      cmd = mkInstallCmd uv ("--python-version=" ++ optVerStr pv) env.scratch mode ov
        ((removeFirst (selectArgs ea env.pip_extra_args).2 "--no-deps").getD
          (selectArgs ea env.pip_extra_args).2) source := by
  simp only [uv_install_with] at h
  repeat' split at h
  all_goals first
    | exact Option.noConfusion h
    | (refine ⟨_, ?_, (Option.some.inj h).symm⟩
       first
         | exact dirPhase_override env uv _ env.scratch mode _ _
         | exact dres_override_if env uv _ env.scratch mode _ _ _
         | exact List.not_mem_nil _)

/-- On a non-directory source the pipeline runs neither compile nor sync and
issues exactly one subprocess invocation: the install command. -/
theorem uv_install_with_nondir (env : Env) (uv : String) (ctx : Context) (source : String)
    (pv : Option String) (mode : InstallMode) (release : Bool) (pfx : Option String)
    (ea : Option (List String))
    (hdir : env.is_dir source = false) :
    (uv_install_with env uv ctx source pv mode release pfx ea).compileRan = false ∧
    (uv_install_with env uv ctx source pv mode release pfx ea).syncRan = false ∧
    ∃ cmd, (uv_install_with env uv ctx source pv mode release pfx ea).installCmd = some cmd ∧
      (uv_install_with env uv ctx source pv mode release pfx ea).commands = [cmd] := by
  simp only [uv_install_with, hdir]
  repeat' split
  all_goals simp_all

/-- The number of occurrences of the no-dependencies flag in the assembled
install command: one mode-driven occurrence, suppressed when the flag is
still among the extra arguments, plus the occurrences the extra arguments
carry themselves. -/
theorem mkInstallCmd_count (uv pyArg tp : String) (mode : InstallMode)
    (ov eargs : List String) (source : String)
    (huv : uv ≠ "--no-deps") (hsrc : source ≠ "--no-deps")
    (hov : "--no-deps" ∉ ov) (hpy : pyArg ≠ "--no-deps") :
    (mkInstallCmd uv pyArg tp mode ov eargs source).count "--no-deps" =
      (if mode = InstallMode.no_deps ∧ "--no-deps" ∉ eargs then 1 else 0) +
        eargs.count "--no-deps" := by
  have h0 : ([uv, "pip", "install", "--prerelease=explicit",
      "--index-strategy=unsafe-best-match", "--system", pyArg,
      "--python-preference=system", "--no-python-downloads",
      "--compile"] : List String).count "--no-deps" = 0 := by
    rw [List.count_eq_zero]
    simp only [List.mem_cons, List.not_mem_nil, or_false]
    push_neg
    exact ⟨fun h => huv h.symm, by decide, by decide, by decide, by decide, by decide,
      fun h => hpy h.symm, by decide, by decide, by decide⟩
  have hsg : ([source] : List String).count "--no-deps" = 0 := by
    rw [List.count_eq_zero]
    simp only [List.mem_singleton]
    exact fun h => hsrc h.symm
  have hovc : ov.count "--no-deps" = 0 := List.count_eq_zero.mpr hov
  have htar : (["--target=" ++ tp] : List String).count "--no-deps" = 0 := by
    rw [List.count_eq_zero]
    simp only [List.mem_singleton]
    exact fun h => target_append_ne tp h.symm
  have hnd1 : (["--no-deps"] : List String).count "--no-deps" = 1 := by decide
  simp only [mkInstallCmd]
  by_cases hm : mode = InstallMode.no_deps ∧ "--no-deps" ∉ eargs
  · simp only [if_pos hm]
    by_cases hopt : _option_present eargs ["-t", "--target"] = true
    · simp only [if_pos hopt, List.count_append, h0, hovc, hsg, hnd1]
      omega
    · simp only [if_neg hopt, List.count_append, h0, hovc, hsg, hnd1, htar]
      omega
  · simp only [if_neg hm]
    by_cases hopt : _option_present eargs ["-t", "--target"] = true
    · simp only [if_pos hopt, List.count_append, h0, hovc, hsg]
      omega
    · simp only [if_neg hopt, List.count_append, h0, hovc, hsg, htar]
      omega

/-- C1, counterexample: in a run whose single distribution lists the
parent-escaping file `../escaped.h` with no remap rule configured, the
translation inside the distribution loop raises, the exception propagates,
and `shutil.rmtree(targetpath)` is never executed — the scratch directory is
leaked, contradicting the claim that it is removed on per-distribution
translation failure. -/
theorem C1_counterexample :
    (uv_install_package envC1 "foo" (some "3.11") InstallMode.min_deps false none
      none).rmtreeRan = false ∧
    (uv_install_package envC1 "foo" (some "3.11") InstallMode.min_deps false none
      none).error ≠ none := by
  decide

/-- C1 (amended): the scratch directory is removed exactly on runs that
complete without an exception; any failure — including a per-distribution
translation failure inside the loop — propagates before the cleanup
statement and leaks the directory. -/
theorem C1_amended_rmtree (env : Env) (source : String) (pv : Option String)
    (mode : InstallMode) (release : Bool) (pfx : Option String) (ea : Option (List String)) :
    (uv_install_package env source pv mode release pfx ea).rmtreeRan = true ↔
    (uv_install_package env source pv mode release pfx ea).error = none := by
  unfold uv_install_package find_uv
  repeat' split
  all_goals first
    | simp [earlyFail]
    | exact uv_install_with_rmtree _ _ _ _ _ _ _ _ _

/-- C2: for a parent-escaping installed-file path, the first matching remap
rule (in configuration order, `List.find?`) determines the mapping through
the rule's source and destination substitutions applied to the path; when no
rule matches, `get_mapping` emits the diagnostic — which names the offending
path and the distribution's RECORD manifest — and raises the
addressing-required `IOError(89)`, never returning a mapping. -/
theorem C2_parent_escape (env : Env) (dist : Distribution) (rel_src : String)
    (hp : (splitSlash rel_src).headD "" = "..") :
    (∀ r, env.pip_install_remaps.find?
        (fun remap => env.re.search remap.record_path rel_src) = some r →
      get_mapping env dist rel_src =
        Except.ok (env.re.sub r.record_path r.pip_install rel_src,
                   env.re.sub r.record_path r.rez_install rel_src)) ∧
    (env.pip_install_remaps.find?
        (fun remap => env.re.search remap.record_path rel_src) = none →
      get_mapping env dist rel_src =
        Except.error (try_this_message (distRecord dist) rel_src (tokenise rel_src),
          ⟨89, ioErrMsg dist, rel_src⟩) ∧
      (∃ a b, try_this_message (distRecord dist) rel_src (tokenise rel_src) =
        a ++ (rel_src ++ b)) ∧
      (∃ a b, try_this_message (distRecord dist) rel_src (tokenise rel_src) =
        a ++ (distRecord dist ++ b))) := by
  have hb : ¬ (splitSlash rel_src).headD "" = "bin" := by
    rw [hp]
    decide
  have hd : ¬ strEndsWith ((splitSlash rel_src).headD "") ".dist-info" = true := by
    rw [hp]
    decide
  constructor
  · intro r hr
    simp only [get_mapping]
    rw [if_neg hb, if_neg hd, if_pos hp, hr]
  · intro hn
    refine ⟨?_, (try_this_mentions _ _ _).1, (try_this_mentions _ _ _).2⟩
    simp only [get_mapping]
    rw [if_neg hb, if_neg hd, if_pos hp, hn]

/-- C2, witness: the parent-escaping path `../lib/x.h` under the one-rule
configuration of `envW2`. -/
theorem C2_witness :
    ((splitSlash "../lib/x.h").headD "" = "..") ∧
    ((∀ r, envW2.pip_install_remaps.find?
        (fun remap => envW2.re.search remap.record_path "../lib/x.h") = some r →
      get_mapping envW2 distW "../lib/x.h" =
        Except.ok (envW2.re.sub r.record_path r.pip_install "../lib/x.h",
                   envW2.re.sub r.record_path r.rez_install "../lib/x.h")) ∧
    (envW2.pip_install_remaps.find?
        (fun remap => envW2.re.search remap.record_path "../lib/x.h") = none →
      get_mapping envW2 distW "../lib/x.h" =
        Except.error (try_this_message (distRecord distW) "../lib/x.h" (tokenise "../lib/x.h"),
          ⟨89, ioErrMsg distW, "../lib/x.h"⟩) ∧
      (∃ a b, try_this_message (distRecord distW) "../lib/x.h" (tokenise "../lib/x.h") =
        a ++ ("../lib/x.h" ++ b)) ∧
      (∃ a b, try_this_message (distRecord distW) "../lib/x.h" (tokenise "../lib/x.h") =
        a ++ (distRecord distW ++ b)))) :=
  ⟨by decide, C2_parent_escape envW2 distW "../lib/x.h" (by decide)⟩

/-- C3, counterexample: with `mode = min_deps` and caller extra arguments
`["--no-deps"]` on a non-directory source, the flag is stripped from the
argument list and the mode is not overridden, so the install command does
not carry `--no-deps` at all — contradicting the claimed override of the
install step. -/
theorem C3_counterexample :
    (uv_install_package envOk "requests" (some "3.11") InstallMode.min_deps false none
      (some ["--no-deps"])).installCmd ≠ none ∧
    ((uv_install_package envOk "requests" (some "3.11") InstallMode.min_deps false none
      (some ["--no-deps"])).installCmd.getD []).contains "--no-deps" = false := by
  decide

/-- C3 (amended): when the extra arguments contain one occurrence of
"--no-deps", the flag is extracted (the list keeps its remaining elements)
and its presence alone suppresses the lock-sync step; but the install mode is
not overridden — with `mode = min_deps` the install command contains no
occurrence of the flag. -/
theorem C3_amended (env : Env) (source : String) (pv : Option String) (release : Bool)
    (pfx : Option String) (l : List String) (uv : String) (ctx : Context)
    (hu : env.which_uv = some uv)
    (hctx : find_python_from_context env pv = Except.ok (some ctx))
    (huv : uv ≠ "--no-deps") (hsrc : source ≠ "--no-deps")
    (hcount : l.count "--no-deps" = 1) :
    (uv_install_package env source pv InstallMode.min_deps release pfx
      (some l)).extraArgsAfter = l.erase "--no-deps" ∧
    (uv_install_package env source pv InstallMode.min_deps release pfx
      (some l)).syncRan = false ∧
    (∀ cmd, (uv_install_package env source pv InstallMode.min_deps release pfx
        (some l)).installCmd = some cmd → cmd.count "--no-deps" = 0) := by
  have hmem : "--no-deps" ∈ l := List.count_pos_iff.mp (by omega)
  have hl : ¬ l = [] := List.ne_nil_of_mem hmem
  have hsel : selectArgs (some l) env.pip_extra_args = (ArgsSource.caller, l) := by
    simp only [selectArgs, if_neg hl]
  have hrm : removeFirst l "--no-deps" = some (l.erase "--no-deps") := by
    simp only [removeFirst, if_pos hmem]
  rw [uv_install_package_reduce env source pv _ release pfx (some l) uv ctx hu hctx]
  refine ⟨?_, ?_, ?_⟩
  · rw [(uv_install_with_args env uv ctx source pv _ release pfx (some l)).2]
    simp [hsel, hrm]
  · apply uv_install_with_syncRan
    simp [hsel, hrm]
  · intro cmd hc
    obtain ⟨ov, hov, hcmd⟩ :=
      uv_install_with_installCmd env uv ctx source pv _ release pfx (some l) cmd hc
    rw [hcmd, mkInstallCmd_count _ _ _ _ _ _ _ huv hsrc hov
      (append_ne_nodeps "--python-version=" _ (by decide))]
    simp only [hsel, hrm, Option.getD_some]
    rw [if_neg (fun hcon => InstallMode.noConfusion hcon.1)]
    simp [List.count_erase_self, hcount]

/-- C3, witness: the amended claim at `envOk` with extra arguments
`["--no-deps"]`. -/
theorem C3_witness :
    (envOk.which_uv = some "/usr/bin/uv") ∧
    ((["--no-deps"] : List String).count "--no-deps" = 1) ∧
    ((uv_install_package envOk "requests" (some "3.11") InstallMode.min_deps false none
      (some ["--no-deps"])).extraArgsAfter = (["--no-deps"] : List String).erase "--no-deps" ∧
    (uv_install_package envOk "requests" (some "3.11") InstallMode.min_deps false none
      (some ["--no-deps"])).syncRan = false ∧
    (∀ cmd, (uv_install_package envOk "requests" (some "3.11") InstallMode.min_deps false none
        (some ["--no-deps"])).installCmd = some cmd → cmd.count "--no-deps" = 0)) :=
  ⟨rfl, by decide,
    C3_amended envOk "requests" (some "3.11") false none ["--no-deps"] "/usr/bin/uv"
      ⟨"3.11.5"⟩ rfl rfl (by decide) (by decide) (by decide)⟩

/-- C4, counterexample: when resolving the `python-3.9` context fails (the
caught not-found exceptions), the run fails before any subprocess — but with
the `AttributeError` of calling `get_resolved_package` on `None`, not with a
`BuildError` as the claim states. -/
theorem C4_counterexample :
    errIsBuild (uv_install_package envC4 "requests" (some "3.9") InstallMode.min_deps false
      none none).error = false ∧
    (uv_install_package envC4 "requests" (some "3.9") InstallMode.min_deps false
      none none).error ≠ none ∧
    (uv_install_package envC4 "requests" (some "3.9") InstallMode.min_deps false
      none none).commands = [] := by
  decide

/-- C4 (amended): the run always fails before any subprocess when no matching
interpreter exists, but the exception kind depends on the failure: a missing
python package (no version requested) raises `BuildError`, while a failed
context resolution returns `None` and the subsequent attribute access raises
an `AttributeError`; `earlyFail` runs no command. -/
theorem C4_amended (env : Env) (source : String) (pv : Option String) (mode : InstallMode)
    (release : Bool) (pfx : Option String) (ea : Option (List String)) (uv : String)
    (hu : env.which_uv = some uv) :
    (pv = none → env.latest_python = none →
      uv_install_package env source pv mode release pfx ea =
        earlyFail (UvError.buildError "Found no python rez package.")) ∧
    (find_python_from_context env pv = Except.ok none →
      uv_install_package env source pv mode release pfx ea =
        earlyFail (UvError.attributeError attrMsg)) ∧
    (∀ e, (earlyFail e).commands = [] ∧ (earlyFail e).error = some e) := by
  refine ⟨?_, ?_, fun e => ⟨rfl, rfl⟩⟩
  · intro h1 h2
    subst h1
    unfold uv_install_package find_uv
    rw [hu]
    unfold find_python_from_context
    rw [h2]
  · intro hc
    unfold uv_install_package find_uv
    rw [hu, hc]

/-- C4, witness: the amended claim at `envC4`, where context resolution
fails for the requested version 3.9. -/
theorem C4_witness :
    (envC4.which_uv = some "/usr/bin/uv") ∧
    (find_python_from_context envC4 (some "3.9") = Except.ok none) ∧
    uv_install_package envC4 "requests" (some "3.9") InstallMode.min_deps false none none =
      earlyFail (UvError.attributeError attrMsg) :=
  ⟨rfl, rfl,
    (C4_amended envC4 "requests" (some "3.9") InstallMode.min_deps false none none
      "/usr/bin/uv" rfl).2.1 rfl⟩

/-- C5: an installed-file path whose top-level segment is the executable
directory "bin" maps to itself unchanged, as both source and destination. -/
theorem C5_bin_identity (env : Env) (dist : Distribution) (rel_src : String)
    (h : (splitSlash rel_src).headD "" = "bin") :
    get_mapping env dist rel_src = Except.ok (rel_src, rel_src) := by
  simp only [get_mapping]
  rw [if_pos h]

/-- C5, witness: the path `bin/tool`. -/
theorem C5_witness :
    ((splitSlash "bin/tool").headD "" = "bin") ∧
    get_mapping envOk distW "bin/tool" = Except.ok ("bin/tool", "bin/tool") :=
  ⟨by decide, C5_bin_identity envOk distW "bin/tool" (by decide)⟩

/-- C6: for every relative installed-file path that is neither an
executable-output path (top segment "bin") nor a parent-escaping path (top
segment ".."), including every path whose top segment ends in ".dist-info",
the mapping keeps the source unchanged and nests the destination one level
under the "python" payload root. -/
theorem C6_payload_nesting (env : Env) (dist : Distribution) (rel_src : String)
    (h1 : (splitSlash rel_src).headD "" ≠ "bin")
    (h2 : (splitSlash rel_src).headD "" ≠ "..")
    (h3 : strStartsWith rel_src "/" = false) :
    get_mapping env dist rel_src = Except.ok (rel_src, "python/" ++ rel_src) := by
  simp only [get_mapping]
  rw [if_neg h1]
  by_cases hd : strEndsWith ((splitSlash rel_src).headD "") ".dist-info" = true
  · rw [if_pos hd, osJoin_python rel_src h3]
  · rw [if_neg hd, if_neg h2, osJoin_python rel_src h3]

/-- C6, witness: the metadata-directory path `foo-1.0.dist-info/RECORD`. -/
theorem C6_witness :
    ((splitSlash "foo-1.0.dist-info/RECORD").headD "" ≠ "bin") ∧
    ((splitSlash "foo-1.0.dist-info/RECORD").headD "" ≠ "..") ∧
    (strStartsWith "foo-1.0.dist-info/RECORD" "/" = false) ∧
    get_mapping envOk distW "foo-1.0.dist-info/RECORD" =
      Except.ok ("foo-1.0.dist-info/RECORD", "python/" ++ "foo-1.0.dist-info/RECORD") :=
  ⟨by decide, by decide, by decide,
    C6_payload_nesting envOk distW "foo-1.0.dist-info/RECORD" (by decide) (by decide)
      (by decide)⟩

/-- C7, counterexample: with `mode = no_deps`, a non-directory source and
extra arguments carrying three occurrences of "--no-deps", the install
command contains the flag twice, not exactly once: `list.remove` strips only
the first occurrence, the mode-driven append is suppressed, and the remaining
two occurrences are passed through verbatim. -/
theorem C7_counterexample :
    (uv_install_package envOk "requests" (some "3.11") InstallMode.no_deps false none
      (some ["--no-deps", "--no-deps", "--no-deps"])).installCmd ≠ none ∧
    ((uv_install_package envOk "requests" (some "3.11") InstallMode.no_deps false none
      (some ["--no-deps", "--no-deps", "--no-deps"])).installCmd.getD []).count
        "--no-deps" = 2 := by
  decide

/-- C7 (amended): with `mode = no_deps` on a non-directory source, the
compile and sync subprocesses never run and the install command is the only
invocation; it carries "--no-deps" exactly `max 1 (n - 1)` times, where `n`
is the number of occurrences in the caller's extra arguments — in particular
exactly once whenever the extra arguments contain the flag at most twice. -/
theorem C7_amended (env : Env) (source : String) (pv : Option String) (release : Bool)
    (pfx : Option String) (l : List String) (uv : String) (ctx : Context)
    (hu : env.which_uv = some uv)
    (hctx : find_python_from_context env pv = Except.ok (some ctx))
    (hdir : env.is_dir source = false)
    (huv : uv ≠ "--no-deps") (hsrc : source ≠ "--no-deps")
    (hl : l ≠ []) :
    (uv_install_package env source pv InstallMode.no_deps release pfx
      (some l)).compileRan = false ∧
    (uv_install_package env source pv InstallMode.no_deps release pfx
      (some l)).syncRan = false ∧
    ∃ cmd,
      (uv_install_package env source pv InstallMode.no_deps release pfx
        (some l)).installCmd = some cmd ∧
      (uv_install_package env source pv InstallMode.no_deps release pfx
        (some l)).commands = [cmd] ∧
      cmd.count "--no-deps" = max 1 (l.count "--no-deps" - 1) := by
  rw [uv_install_package_reduce env source pv _ release pfx (some l) uv ctx hu hctx]
  obtain ⟨hcr, hsr, cmd, hic, hcs⟩ :=
    uv_install_with_nondir env uv ctx source pv InstallMode.no_deps release pfx (some l) hdir
  refine ⟨hcr, hsr, cmd, hic, hcs, ?_⟩
  obtain ⟨ov, hov, hcmd⟩ :=
    uv_install_with_installCmd env uv ctx source pv _ release pfx (some l) cmd hic
  rw [hcmd, mkInstallCmd_count _ _ _ _ _ _ _ huv hsrc hov
    (append_ne_nodeps "--python-version=" _ (by decide))]
  have hsel : selectArgs (some l) env.pip_extra_args = (ArgsSource.caller, l) := by
    simp only [selectArgs, if_neg hl]
  by_cases hmem : "--no-deps" ∈ l
  · have hrm : removeFirst l "--no-deps" = some (l.erase "--no-deps") := by
      simp only [removeFirst, if_pos hmem]
    rw [hsel]
    dsimp only
    rw [hrm]
    dsimp only [Option.getD]
    have hc1 : (l.erase "--no-deps").count "--no-deps" = l.count "--no-deps" - 1 :=
      List.count_erase_self _ _
    have hpos : 0 < l.count "--no-deps" := List.count_pos_iff.mpr hmem
    by_cases h2 : "--no-deps" ∈ l.erase "--no-deps"
    · have hpos2 : 0 < (l.erase "--no-deps").count "--no-deps" := List.count_pos_iff.mpr h2
      rw [if_neg (fun hcon => hcon.2 h2)]
      omega
    · rw [if_pos ⟨rfl, h2⟩]
      have hz : (l.erase "--no-deps").count "--no-deps" = 0 := List.count_eq_zero.mpr h2
      omega
  · have hrm : removeFirst l "--no-deps" = none := by
      simp only [removeFirst, if_neg hmem]
    rw [hsel]
    dsimp only
    rw [hrm]
    dsimp only [Option.getD]
    rw [if_pos ⟨rfl, hmem⟩]
    have hz : l.count "--no-deps" = 0 := List.count_eq_zero.mpr hmem
    omega

/-- C7, witness: the amended claim at `envOk` with extra arguments `["-v"]`
(zero occurrences of the flag: the install command carries it exactly
once). -/
theorem C7_witness :
    (envOk.which_uv = some "/usr/bin/uv") ∧
    (envOk.is_dir "requests" = false) ∧
    ((uv_install_package envOk "requests" (some "3.11") InstallMode.no_deps false none
      (some ["-v"])).compileRan = false ∧
    (uv_install_package envOk "requests" (some "3.11") InstallMode.no_deps false none
      (some ["-v"])).syncRan = false ∧
    ∃ cmd,
      (uv_install_package envOk "requests" (some "3.11") InstallMode.no_deps false none
        (some ["-v"])).installCmd = some cmd ∧
      (uv_install_package envOk "requests" (some "3.11") InstallMode.no_deps false none
        (some ["-v"])).commands = [cmd] ∧
      cmd.count "--no-deps" = max 1 ((["-v"] : List String).count "--no-deps" - 1)) :=
  ⟨rfl, rfl,
    C7_amended envOk "requests" (some "3.11") false none ["-v"] "/usr/bin/uv" ⟨"3.11.5"⟩
      rfl rfl rfl (by decide) (by decide) (by decide)⟩

/-- C8, counterexample: a metadata dict declaring only the author name (no
email) still records the author line, contradicting the claim that the line
is set only when both fields are declared. -/
theorem C8_counterexample :
    pkgAuthors [("author", "Jane Doe")] = some ["Jane Doe"] := rfl

/-- C8 (amended): the author line is recorded whenever the author name is
declared — alone when no email is declared, and with the email appended
after a space when it is; an email alone yields no author line (no `author`
key, no line). -/
theorem C8_amended (md : List (String × String)) :
    (md.lookup "author" = none → pkgAuthors md = none) ∧
    (∀ a, md.lookup "author" = some a → md.lookup "author_email" = none →
      pkgAuthors md = some [a]) ∧
    (∀ a e, md.lookup "author" = some a → md.lookup "author_email" = some e →
      pkgAuthors md = some [(a ++ " ") ++ e]) := by
  refine ⟨?_, ?_, ?_⟩
  · intro h
    simp [pkgAuthors, h]
  · intro a h1 h2
    simp [pkgAuthors, h1, h2]
  · intro a e h1 h2
    simp [pkgAuthors, h1, h2]

/-- C8, witness: a metadata dict declaring both fields. -/
theorem C8_witness :
    (([("author", "Jane Doe"), ("author_email", "jane@example.org")] :
      List (String × String)).lookup "author" = some "Jane Doe") ∧
    (([("author", "Jane Doe"), ("author_email", "jane@example.org")] :
      List (String × String)).lookup "author_email" = some "jane@example.org") ∧
    pkgAuthors [("author", "Jane Doe"), ("author_email", "jane@example.org")] =
      some [("Jane Doe" ++ " ") ++ "jane@example.org"] :=
  ⟨rfl, rfl, (C8_amended _).2.2 "Jane Doe" "jane@example.org" rfl rfl⟩

/-- C9: when every installed file of the distribution translates, the
file-mapping builder succeeds (missing sources are not fatal); every entry of
the returned mapping has an existing source path; every translated file whose
source exists contributes its key to the mapping; and every translated file
whose source is missing is excluded, leaving its warning in the log. -/
theorem C9_missing_source_skipped (env : Env) (dist : Distribution) (targetdir : String)
    (h : ∀ f ∈ dist.installed_files, ∃ v, get_mapping env dist (normpath f) = Except.ok v) :
    ∃ ws res, _get_distribution_files_mapping env dist targetdir = Except.ok (ws, res) ∧
      (∀ p ∈ res, env.path_exists (osJoin targetdir p.1) = true) ∧
      (∀ f ∈ dist.installed_files, ∀ s d,
        get_mapping env dist (normpath f) = Except.ok (s, d) →
          ((env.path_exists (osJoin targetdir s) = true → ∃ v, (s, v) ∈ res) ∧
           (env.path_exists (osJoin targetdir s) = false →
             warnMsg (osJoin targetdir s) (normpath f) ∈ ws))) := by
  obtain ⟨ws, res, heq, hP, hkey, hw, hfiles⟩ :=
    mappingLoop_spec env dist targetdir dist.installed_files [] [] h
  exact ⟨ws, res, heq, hP (by simp), hfiles⟩

/-- C9, witness: `distW9` under `envW9`, where `pkg/a.py` exists and
`pkg/missing.py` does not. -/
theorem C9_witness :
    (∀ f ∈ distW9.installed_files, ∃ v, get_mapping envW9 distW9 (normpath f) = Except.ok v) ∧
    (∃ ws res, _get_distribution_files_mapping envW9 distW9 "/t" = Except.ok (ws, res) ∧
      (∀ p ∈ res, envW9.path_exists (osJoin "/t" p.1) = true) ∧
      (∀ f ∈ distW9.installed_files, ∀ s d,
        get_mapping envW9 distW9 (normpath f) = Except.ok (s, d) →
          ((envW9.path_exists (osJoin "/t" s) = true → ∃ v, (s, v) ∈ res) ∧
           (envW9.path_exists (osJoin "/t" s) = false →
             warnMsg (osJoin "/t" s) (normpath f) ∈ ws)))) :=
  ⟨fun f hf => by
      simp only [distW9, List.mem_cons, List.not_mem_nil, or_false] at hf
      rcases hf with rfl | rfl
      · exact ⟨("pkg/a.py", "python/pkg/a.py"), rfl⟩
      · exact ⟨("pkg/missing.py", "python/pkg/missing.py"), rfl⟩,
    C9_missing_source_skipped envW9 distW9 "/t" (fun f hf => by
      simp only [distW9, List.mem_cons, List.not_mem_nil, or_false] at hf
      rcases hf with rfl | rfl
      · exact ⟨("pkg/a.py", "python/pkg/a.py"), rfl⟩
      · exact ⟨("pkg/missing.py", "python/pkg/missing.py"), rfl⟩)⟩

/-- C10: the extra-argument handling mutates the selected list object in
place: with a caller-supplied list containing "--no-deps", the caller's list
is the one selected and its final contents lack the first occurrence of the
flag; with no caller list, the shared `config.pip_extra_args` list is used
directly and mutated the same way. -/
theorem C10_inplace_mutation (env : Env) (source : String) (pv : Option String)
    (mode : InstallMode) (release : Bool) (pfx : Option String) (uv : String) (ctx : Context)
    (hu : env.which_uv = some uv)
    (hctx : find_python_from_context env pv = Except.ok (some ctx)) :
    (∀ l, "--no-deps" ∈ l →
      (uv_install_package env source pv mode release pfx (some l)).argsSource =
        ArgsSource.caller ∧
      (uv_install_package env source pv mode release pfx (some l)).extraArgsAfter =
        l.erase "--no-deps") ∧
    ("--no-deps" ∈ env.pip_extra_args →
      (uv_install_package env source pv mode release pfx none).argsSource = ArgsSource.cfg ∧
      (uv_install_package env source pv mode release pfx none).extraArgsAfter =
        env.pip_extra_args.erase "--no-deps") := by
  constructor
  · intro l hmem
    have hl : ¬ l = [] := List.ne_nil_of_mem hmem
    rw [uv_install_package_reduce env source pv mode release pfx (some l) uv ctx hu hctx]
    have hsel : selectArgs (some l) env.pip_extra_args = (ArgsSource.caller, l) := by
      simp only [selectArgs, if_neg hl]
    have hrm : removeFirst l "--no-deps" = some (l.erase "--no-deps") := by
      simp only [removeFirst, if_pos hmem]
    constructor
    · rw [(uv_install_with_args env uv ctx source pv mode release pfx (some l)).1, hsel]
    · rw [(uv_install_with_args env uv ctx source pv mode release pfx (some l)).2]
      simp [hsel, hrm]
  · intro hmem
    have hc : ¬ env.pip_extra_args = [] := List.ne_nil_of_mem hmem
    rw [uv_install_package_reduce env source pv mode release pfx none uv ctx hu hctx]
    have hsel : selectArgs none env.pip_extra_args = (ArgsSource.cfg, env.pip_extra_args) := by
      simp only [selectArgs, if_neg hc]
    have hrm : removeFirst env.pip_extra_args "--no-deps" =
        some (env.pip_extra_args.erase "--no-deps") := by
      simp only [removeFirst, if_pos hmem]
    constructor
    · rw [(uv_install_with_args env uv ctx source pv mode release pfx none).1, hsel]
    · rw [(uv_install_with_args env uv ctx source pv mode release pfx none).2]
      simp [hsel, hrm]

/-- C10, witness: the caller-list case at `["--no-deps", "-x"]` and the
config-list case at `envW10`. -/
theorem C10_witness :
    (envW10.which_uv = some "/usr/bin/uv") ∧
    ("--no-deps" ∈ envW10.pip_extra_args) ∧
    ((uv_install_package envW10 "requests" (some "3.11") InstallMode.min_deps false none
      none).argsSource = ArgsSource.cfg ∧
    (uv_install_package envW10 "requests" (some "3.11") InstallMode.min_deps false none
      none).extraArgsAfter = envW10.pip_extra_args.erase "--no-deps") :=
  ⟨rfl, by decide,
    (C10_inplace_mutation envW10 "requests" (some "3.11") InstallMode.min_deps false none
      "/usr/bin/uv" ⟨"3.11.5"⟩ rfl rfl).2 (by decide)⟩

end RezUv
